import Mathlib

/-!
Verification of the rumi-analytica front-end session and chat-transport layer.

Shallow embedding of:
  - the chat transport `sendChatMessage` (src/unnamed/part_004);
  - the chat input guard `ChatInput.handleSubmit` (src/unnamed/part_000);
  - the chat page handler `Index.handleSendMessage` (src/unnamed/part_002);
  - the session provider `AuthProvider` with rehydration, `login` and `logout`
    (src/frontend/src/components/WelcomeScreen.tsx, third embedded document).

Browser `localStorage` is modelled as a partial map from string keys to string
values; the backend is modelled as an oracle function supplied as a parameter;
thrown JavaScript errors are modelled as values of explicit error types.
-/

namespace RumiAnalytica

/-- Browser local storage: a partial map from string keys to string values. -/
def Storage : Type := String → Option String

/-- `localStorage.getItem(key)`. -/
def getItem (stor : Storage) (key : String) : Option String := stor key

/-- `localStorage.setItem(key, value)`. -/
def setItem (stor : Storage) (key value : String) : Storage :=
  fun k => if k = key then some value else stor k

/-- `localStorage.removeItem(key)`. -/
def removeItem (stor : Storage) (key : String) : Storage :=
  fun k => if k = key then none else stor k

/-- The fixed storage key for the bearer token. -/
def accessTokenKey : String := "access_token"

/-- The fixed storage key for the identity label. -/
def usernameKey : String := "username"

/-- JavaScript truthiness of a `localStorage.getItem` result:
`null` and the empty string are falsy, every other string is truthy. -/
def truthy : Option String → Bool
  | none => false
  | some s => !s.isEmpty

/-- The storage with no keys set. -/
def emptyStorage : Storage := fun _ => none

/-- `ChatResponse` of src/unnamed/part_004: the parsed JSON reply body. -/
structure ChatResponse where
  response : String
  deriving DecidableEq

/-- An HTTP request issued by the chat transport: the path, the optional
bearer credential of the Authorization header, and the JSON message body. -/
structure HttpRequest where
  path : String
  bearer : Option String
  message : String
  deriving DecidableEq

/-- The backend reply to a chat request: HTTP status plus parsed body. -/
structure ChatHttpResponse where
  status : Nat
  body : ChatResponse

/-- `Response.ok` of the fetch API: status in the range 200-299. -/
def respOk (status : Nat) : Bool := 200 ≤ status && status < 300

/-- Classification of the errors `sendChatMessage` throws:
`unauthenticated` for `Error('Not authenticated')`,
`sessionExpired` for `Error('Session expired. Please login again.')`,
`backendError s` for ``Error(`Backend error: ${status}`)``. -/
inductive ChatError where
  | unauthenticated : ChatError
  | sessionExpired : ChatError
  | backendError (status : Nat) : ChatError
  deriving DecidableEq

/-- The request path of the chat endpoint. -/
def chatPath : String := "/api/chat"

/-- Result of one call to the chat transport: the value returned or the error
thrown, together with the list of network requests the call issued. -/
structure SendOutcome where
  result : Except ChatError ChatResponse
  calls : List HttpRequest

/-- `sendChatMessage` of src/unnamed/part_004. Reads the token from local
storage; `if (!token)` (null or empty string) throws Not authenticated before
any fetch; otherwise it issues one POST to `/api/chat` with the token as
bearer credential, then classifies the response: not ok and status 401 throws
Session expired, not ok otherwise throws Backend error with the status, and
an ok response returns the parsed body. -/
def sendChatMessage (stor : Storage) (backend : HttpRequest → ChatHttpResponse)
    (message : String) : SendOutcome :=
  match getItem stor accessTokenKey with
  | none => ⟨Except.error ChatError.unauthenticated, []⟩
  | some token =>
    if token.isEmpty then ⟨Except.error ChatError.unauthenticated, []⟩
    else
      let req : HttpRequest := ⟨chatPath, some token, message⟩
      let response := backend req
      if !respOk response.status then
        if response.status = 401 then ⟨Except.error ChatError.sessionExpired, [req]⟩
        else ⟨Except.error (ChatError.backendError response.status), [req]⟩
      else ⟨Except.ok response.body, [req]⟩

/-- A backend oracle answering every request with the same status and reply. -/
def constBackend (status : Nat) (reply : String) : HttpRequest → ChatHttpResponse :=
  fun _ => ⟨status, ⟨reply⟩⟩

/-- A storage holding only the access token, value `tok`. -/
def tokenOnlyStorage (tok : String) : Storage := setItem emptyStorage accessTokenKey tok

end RumiAnalytica

namespace RumiAnalytica

/-- C1: with no token in persisted storage, the chat transport fails with the
Unauthenticated error and issues no network call. -/
theorem sendChatMessage_no_token (stor : Storage)
    (backend : HttpRequest → ChatHttpResponse) (message : String)
    (h : getItem stor accessTokenKey = none) :
    (sendChatMessage stor backend message).result = Except.error ChatError.unauthenticated ∧
    (sendChatMessage stor backend message).calls = [] := by
  simp [sendChatMessage, h]

/-- Witness for C1 at the empty storage, a 200-backend and message hello. -/
theorem sendChatMessage_no_token_witness :
    (sendChatMessage emptyStorage (constBackend 200 "hi") "hello").result
        = Except.error ChatError.unauthenticated ∧
    (sendChatMessage emptyStorage (constBackend 200 "hi") "hello").calls = [] :=
  sendChatMessage_no_token emptyStorage (constBackend 200 "hi") "hello" rfl

/-- C2: with a token present (a non-empty stored token), a 401 response makes
the transport fail with SessionExpired, and any other non-success status s
makes it fail with BackendError carrying s; exactly one request is issued. -/
theorem sendChatMessage_http_error (stor : Storage)
    (backend : HttpRequest → ChatHttpResponse) (message token : String)
    (ht : getItem stor accessTokenKey = some token) (hne : token.isEmpty = false)
    (hs : respOk (backend ⟨chatPath, some token, message⟩).status = false) :
    (sendChatMessage stor backend message).result =
      (if (backend ⟨chatPath, some token, message⟩).status = 401 then
        Except.error ChatError.sessionExpired
      else
        Except.error (ChatError.backendError (backend ⟨chatPath, some token, message⟩).status)) ∧
    (sendChatMessage stor backend message).calls = [⟨chatPath, some token, message⟩] := by
  have hb : (!respOk (backend ⟨chatPath, some token, message⟩).status) = true := by
    rw [hs]; rfl
  by_cases h401 : (backend ⟨chatPath, some token, message⟩).status = 401
  · simp [sendChatMessage, ht, hne, hs, h401, respOk]
  · simp [sendChatMessage, ht, hne, hb, h401]

/-- Witness for C2: token tok stored, backend answering 401; the call fails
with SessionExpired. -/
theorem sendChatMessage_http_error_witness :
    getItem (tokenOnlyStorage "tok") accessTokenKey = some "tok" ∧
    "tok".isEmpty = false ∧
    respOk (constBackend 401 "" ⟨chatPath, some "tok", "hello"⟩).status = false ∧
    (sendChatMessage (tokenOnlyStorage "tok") (constBackend 401 "") "hello").result =
      (if (constBackend 401 "" ⟨chatPath, some "tok", "hello"⟩).status = 401 then
        Except.error ChatError.sessionExpired
      else
        Except.error (ChatError.backendError
          (constBackend 401 "" ⟨chatPath, some "tok", "hello"⟩).status)) ∧
    (sendChatMessage (tokenOnlyStorage "tok") (constBackend 401 "") "hello").calls
        = [⟨chatPath, some "tok", "hello"⟩] :=
  ⟨by decide, by decide, by decide,
    sendChatMessage_http_error (tokenOnlyStorage "tok") (constBackend 401 "") "hello" "tok"
      (by decide) (by decide) (by decide)⟩

end RumiAnalytica

namespace RumiAnalytica

/-- Removing leading and trailing whitespace from a character list. -/
def trimChars (l : List Char) : List Char :=
  ((l.dropWhile Char.isWhitespace).reverse.dropWhile Char.isWhitespace).reverse

/-- The JavaScript `String.prototype.trim`, modelled over the character list
(strip leading and trailing whitespace). -/
def jsTrim (s : String) : String := String.mk (trimChars s.data)

/-- `ChatInput.handleSubmit` of src/unnamed/part_000: fires `onSend` with the
trimmed message iff the trimmed message is truthy (non-empty) and the input is
not disabled. Returns the argument passed to `onSend`, if any. -/
def handleSubmit (message : String) (disabled : Bool) : Option String :=
  if !(jsTrim message).isEmpty && !disabled then some (jsTrim message) else none

/-- One submission of a raw message through the chat input wired to the chat
transport: `sendChatMessage` runs only when `handleSubmit` fires `onSend`. -/
def submitChat (stor : Storage) (backend : HttpRequest → ChatHttpResponse)
    (message : String) (disabled : Bool) : Option SendOutcome :=
  (handleSubmit message disabled).map (sendChatMessage stor backend)

/-- The network requests issued by one submission through the chat input. -/
def submitCalls (stor : Storage) (backend : HttpRequest → ChatHttpResponse)
    (message : String) (disabled : Bool) : List HttpRequest :=
  match submitChat stor backend message disabled with
  | none => []
  | some o => o.calls

/-- Message role, the user or assistant tag of src/unnamed/part_002. -/
inductive Role where
  | user : Role
  | assistant : Role
  deriving DecidableEq

/-- A conversation-log entry, `Message` of src/unnamed/part_002. -/
structure Message where
  role : Role
  content : String
  deriving DecidableEq

/-- The apostrophe character, kept out of string literals. -/
def apos : Char := Char.ofNat 39

/-- The fixed assistant reply text hard-coded in `Index.handleSendMessage`
of src/unnamed/part_002. -/
def placeholderReply : String :=
  "I" ++ apos.toString ++
    "m ready to help you analyze your Google Analytics data! However, the backend integration is not yet configured. Please connect the FastAPI backend or set up Lovable Cloud Edge Functions to enable full functionality."

/-- `Index.handleSendMessage` of src/unnamed/part_002, effect on the
conversation log of a completed call: appends the user message, then — after
a fixed delay and with no call to the transport — appends the hard-coded
assistant message. -/
def handleSendMessage (messages : List Message) (content : String) : List Message :=
  (messages ++ [⟨Role.user, content⟩]) ++ [⟨Role.assistant, placeholderReply⟩]

/-- The state of the chat page `Index` of src/unnamed/part_002: the
conversation log, the `isLoading` busy flag, and the number of send
operations started but not yet settled. -/
structure UIState where
  messages : List Message
  isLoading : Bool
  pending : Nat
  deriving DecidableEq

/-- The initial state of the chat page: empty log, not loading. -/
def initialUIState : UIState := ⟨[], false, 0⟩

/-- Events driving the chat page: a form submission with the raw input text,
or the settling (resolution or rejection) of an outstanding send. -/
inductive UIEvent where
  | submit (raw : String) : UIEvent
  | settle (ok : Bool) : UIEvent

/-- One step of the chat page. A submission goes through
`ChatInput.handleSubmit` with the disabled flag wired to `isLoading`; when
`onSend` fires, `Index.handleSendMessage` appends the user message, sets
`isLoading` and starts an asynchronous operation. When an outstanding
operation settles, the success branch appends the assistant message, the
catch branch only toasts, and the finally branch clears `isLoading`. A
settle event with no operation outstanding cannot occur and is a no-op. -/
def stepUI (s : UIState) : UIEvent → UIState
  | UIEvent.submit raw =>
    match handleSubmit raw s.isLoading with
    | none => s
    | some m => ⟨s.messages ++ [⟨Role.user, m⟩], true, s.pending + 1⟩
  | UIEvent.settle ok =>
    if s.pending = 0 then s
    else
      ⟨if ok then s.messages ++ [⟨Role.assistant, placeholderReply⟩] else s.messages,
        false, s.pending - 1⟩

/-- The state of the chat page after a sequence of events. -/
def uiReach (events : List UIEvent) : UIState :=
  events.foldl stepUI initialUIState

/-- Coupling invariant of the chat page: the number of outstanding send
operations is one when the busy flag is set and zero when it is clear. -/
def uiInv (s : UIState) : Prop :=
  s.pending = (if s.isLoading then 1 else 0)

theorem handleSubmit_disabled (raw : String) : handleSubmit raw true = none := by
  simp [handleSubmit]

theorem stepUI_inv (s : UIState) (e : UIEvent) (h : uiInv s) : uiInv (stepUI s e) := by
  cases e with
  | submit raw =>
    by_cases hl : s.isLoading
    · have hstep : stepUI s (UIEvent.submit raw) = s := by
        simp [stepUI, hl, handleSubmit_disabled]
      rw [hstep]; exact h
    · simp only [stepUI]
      cases hb : handleSubmit raw s.isLoading
      · exact h
      · simp only [uiInv] at h ⊢
        simp [h, hl]
  | settle ok =>
    simp only [uiInv] at h
    by_cases hp : s.pending = 0
    · have hstep : stepUI s (UIEvent.settle ok) = s := by simp [stepUI, hp]
      rw [hstep]
      exact h
    · simp only [stepUI, hp, if_neg]
      simp only [uiInv]
      by_cases hl : s.isLoading
      · simp_all
      · simp_all

theorem uiInv_foldl (events : List UIEvent) (s : UIState) (h : uiInv s) :
    uiInv (events.foldl stepUI s) := by
  induction events generalizing s with
  | nil => exact h
  | cons e rest ih => exact ih (stepUI s e) (stepUI_inv s e h)

end RumiAnalytica

namespace RumiAnalytica

/-- C3: an empty or whitespace-only raw message never reaches the transport:
the chat input does not fire `onSend`, and no network request is issued, for
every storage, backend and disabled flag. -/
theorem submit_blank_no_network (stor : Storage)
    (backend : HttpRequest → ChatHttpResponse) (message : String) (disabled : Bool)
    (h : jsTrim message = "") :
    submitChat stor backend message disabled = none ∧
    submitCalls stor backend message disabled = [] := by
  have he : (jsTrim message).isEmpty = true := by rw [h]; rfl
  have hs : handleSubmit message disabled = none := by
    simp [handleSubmit, he]
  simp [submitChat, submitCalls, hs]

/-- Witness for C3: three spaces, with a live token and backend, produce no
submission and no network request. -/
theorem submit_blank_no_network_witness :
    jsTrim "   " = "" ∧
    submitChat (tokenOnlyStorage "tok") (constBackend 200 "hi") "   " false = none ∧
    submitCalls (tokenOnlyStorage "tok") (constBackend 200 "hi") "   " false = [] :=
  ⟨by decide,
    (submit_blank_no_network (tokenOnlyStorage "tok") (constBackend 200 "hi") "   " false
      (by decide)).1,
    (submit_blank_no_network (tokenOnlyStorage "tok") (constBackend 200 "hi") "   " false
      (by decide)).2⟩

/-- C8, code evaluated at the failing input: `Index.handleSendMessage` of
src/unnamed/part_002 appends the hard-coded placeholder text as the assistant
entry, never invoking the transport, so a send of hello does not yield the
assistant entry hi that the round-trip property asks for. -/
theorem handleSendMessage_placeholder :
    handleSendMessage [] "hello" =
      [⟨Role.user, "hello"⟩, ⟨Role.assistant, placeholderReply⟩] ∧
    placeholderReply ≠ "hi" :=
  ⟨rfl, by decide⟩

/-- C9: in every state of the chat page reachable from the initial state, at
most one send operation is outstanding: the input trigger is disabled by the
busy flag until the outstanding send settles. -/
theorem at_most_one_send_inflight (events : List UIEvent) :
    (uiReach events).pending ≤ 1 := by
  have h := uiInv_foldl events initialUIState (by simp [uiInv, initialUIState])
  unfold uiInv at h
  unfold uiReach
  rw [h]
  by_cases hl : (events.foldl stepUI initialUIState).isLoading <;> simp [hl]

end RumiAnalytica

namespace RumiAnalytica

/-- In-memory state of `AuthProvider` of
src/frontend/src/components/WelcomeScreen.tsx: the `token` and `username`
React state cells, both initialized to null. -/
structure AuthState where
  token : Option String
  username : Option String
  deriving DecidableEq

/-- The initial provider state: both cells null (logged out). -/
def initialAuthState : AuthState := ⟨none, none⟩

/-- The rehydration effect of `AuthProvider` (the mount-time `useEffect`):
reads both keys from storage and adopts them iff both are truthy; otherwise
the in-memory state is left as it is. -/
def rehydrate (stor : Storage) (st : AuthState) : AuthState :=
  let storedToken := getItem stor accessTokenKey
  let storedUsername := getItem stor usernameKey
  if truthy storedToken && truthy storedUsername then ⟨storedToken, storedUsername⟩
  else st

/-- Classification of the error `login` throws:
`authenticationFailed` for `Error('Invalid username or password')`. -/
inductive AuthError where
  | authenticationFailed : AuthError
  deriving DecidableEq

/-- The authentication endpoint reply: HTTP status plus the `access_token`
field of the parsed JSON body. -/
structure TokenHttpResponse where
  status : Nat
  access_token : String

/-- Result of one `login` call: the error thrown, if any, and the in-memory
state and persisted storage after the call. -/
structure LoginOutcome where
  error : Option AuthError
  state : AuthState
  storage : Storage

/-- `AuthProvider.login` of src/frontend/src/components/WelcomeScreen.tsx:
POSTs the credentials to the token endpoint (modelled as the oracle
`backend`); a non-ok response throws before any mutation; an ok response sets
both in-memory cells and then persists both values under their fixed keys. -/
def login (st : AuthState) (stor : Storage) (username password : String)
    (backend : String → String → TokenHttpResponse) : LoginOutcome :=
  let response := backend username password
  if !respOk response.status then ⟨some AuthError.authenticationFailed, st, stor⟩
  else
    ⟨none, ⟨some response.access_token, some username⟩,
      setItem (setItem stor accessTokenKey response.access_token) usernameKey username⟩

/-- `AuthProvider.logout` of src/frontend/src/components/WelcomeScreen.tsx:
sets both in-memory cells to null and removes both persisted keys,
unconditionally. -/
def logout (_st : AuthState) (stor : Storage) : AuthState × Storage :=
  (⟨none, none⟩, removeItem (removeItem stor accessTokenKey) usernameKey)

/-- Events driving the session provider: the mount-time rehydration, a login
attempt (with the backend oracle deciding the response), and a logout. -/
inductive AuthEvent where
  | init : AuthEvent
  | loginEv (username password : String)
      (backend : String → String → TokenHttpResponse) : AuthEvent
  | logoutEv : AuthEvent

/-- One step of the session provider over in-memory state plus storage. -/
def stepAuth (s : AuthState × Storage) (e : AuthEvent) : AuthState × Storage :=
  match e with
  | AuthEvent.init => (rehydrate s.2 s.1, s.2)
  | AuthEvent.loginEv username password backend =>
    let o := login s.1 s.2 username password backend
    (o.state, o.storage)
  | AuthEvent.logoutEv => logout s.1 s.2

/-- The session invariant: token and identity are both present or both
absent. -/
def sessionInv (st : AuthState) : Prop :=
  st.token.isSome = st.username.isSome

theorem truthy_isSome (o : Option String) (h : truthy o = true) : o.isSome = true := by
  cases o with
  | none => simp [truthy] at h
  | some s => rfl

theorem stepAuth_sessionInv (s : AuthState × Storage) (e : AuthEvent)
    (h : sessionInv s.1) : sessionInv (stepAuth s e).1 := by
  cases e with
  | init =>
    simp only [stepAuth, rehydrate]
    by_cases hc : (truthy (getItem s.2 accessTokenKey)
        && truthy (getItem s.2 usernameKey)) = true
    · rw [if_pos hc]
      have h1 := truthy_isSome _ (Bool.and_elim_left hc)
      have h2 := truthy_isSome _ (Bool.and_elim_right hc)
      simp only [sessionInv, h1, h2]
    · rw [if_neg hc]
      exact h
  | loginEv username password backend =>
    simp only [stepAuth, login]
    by_cases hc : (!respOk (backend username password).status) = true
    · rw [if_pos hc]
      exact h
    · rw [if_neg hc]
      rfl
  | logoutEv => rfl

end RumiAnalytica

namespace RumiAnalytica

/-- C4: a login attempt answered with a non-success HTTP status throws
AuthenticationFailed and leaves the in-memory state and the persisted storage
exactly as they were. -/
theorem login_failure_atomic (st : AuthState) (stor : Storage)
    (username password : String) (backend : String → String → TokenHttpResponse)
    (h : respOk (backend username password).status = false) :
    login st stor username password backend =
      ⟨some AuthError.authenticationFailed, st, stor⟩ := by
  have hb : (!respOk (backend username password).status) = true := by rw [h]; rfl
  simp [login, hb]

/-- Witness for C4: a 401 from the token endpoint leaves the logged-out state
and the empty storage untouched. -/
theorem login_failure_atomic_witness :
    respOk ((fun _ _ => (⟨401, "t"⟩ : TokenHttpResponse)) "u" "p").status = false ∧
    login initialAuthState emptyStorage "u" "p" (fun _ _ => ⟨401, "t"⟩) =
      ⟨some AuthError.authenticationFailed, initialAuthState, emptyStorage⟩ :=
  ⟨by decide,
    login_failure_atomic initialAuthState emptyStorage "u" "p" (fun _ _ => ⟨401, "t"⟩)
      (by decide)⟩

/-- C5: a login attempt answered with a success status throws nothing, sets
the in-memory token to the returned access_token and the identity to the
submitted username, and persists both values under their fixed keys. -/
theorem login_success_sets_and_persists (st : AuthState) (stor : Storage)
    (username password : String) (backend : String → String → TokenHttpResponse)
    (h : respOk (backend username password).status = true) :
    (login st stor username password backend).error = none ∧
    (login st stor username password backend).state =
      ⟨some (backend username password).access_token, some username⟩ ∧
    getItem (login st stor username password backend).storage accessTokenKey =
      some (backend username password).access_token ∧
    getItem (login st stor username password backend).storage usernameKey =
      some username := by
  have hk : accessTokenKey ≠ usernameKey := by decide
  simp [login, h, getItem, setItem, accessTokenKey, usernameKey]

/-- Witness for C5: a 200 from the token endpoint with token t logs u in and
persists both fields. -/
theorem login_success_sets_and_persists_witness :
    respOk ((fun _ _ => (⟨200, "t"⟩ : TokenHttpResponse)) "u" "p").status = true ∧
    ((login initialAuthState emptyStorage "u" "p" (fun _ _ => ⟨200, "t"⟩)).error = none ∧
      (login initialAuthState emptyStorage "u" "p" (fun _ _ => ⟨200, "t"⟩)).state =
        ⟨some "t", some "u"⟩ ∧
      getItem (login initialAuthState emptyStorage "u" "p"
          (fun _ _ => ⟨200, "t"⟩)).storage accessTokenKey = some "t" ∧
      getItem (login initialAuthState emptyStorage "u" "p"
          (fun _ _ => ⟨200, "t"⟩)).storage usernameKey = some "u") :=
  ⟨by decide,
    login_success_sets_and_persists initialAuthState emptyStorage "u" "p"
      (fun _ _ => ⟨200, "t"⟩) (by decide)⟩

/-- C6: the invariant that token and identity are both present or both absent
holds in every state the session provider reaches from startup by rehydration,
login and logout, for every initial storage content — in particular a storage
holding only one of the two fields rehydrates to the logged-out state. -/
theorem sessionInv_reachable (stor0 : Storage) (events : List AuthEvent) :
    sessionInv (events.foldl stepAuth (initialAuthState, stor0)).1 := by
  suffices hgen : ∀ s : AuthState × Storage, sessionInv s.1 →
      sessionInv (events.foldl stepAuth s).1 by
    exact hgen (initialAuthState, stor0) rfl
  induction events with
  | nil => exact fun s h => h
  | cons e rest ih =>
    exact fun s h => ih (stepAuth s e) (stepAuth_sessionInv s e h)

/-- C7: logout clears both in-memory cells and both persisted fields whatever
the prior state, and it is idempotent. -/
theorem logout_clears_and_idempotent (st : AuthState) (stor : Storage) :
    (logout st stor).1 = initialAuthState ∧
    getItem (logout st stor).2 accessTokenKey = none ∧
    getItem (logout st stor).2 usernameKey = none ∧
    logout (logout st stor).1 (logout st stor).2 = logout st stor := by
  refine ⟨rfl, ?_, ?_, ?_⟩
  · simp [logout, getItem, removeItem, accessTokenKey, usernameKey]
  · simp [logout, getItem, removeItem]
  · simp only [logout, Prod.mk.injEq, true_and]
    funext k
    simp only [removeItem]
    by_cases h1 : k = usernameKey <;> by_cases h2 : k = accessTokenKey <;>
      simp [h1, h2]

end RumiAnalytica

namespace RumiAnalytica

/-- A primitive `localStorage` operation. -/
inductive StorageOp where
  | getOp (key : String) : StorageOp
  | setOp (key value : String) : StorageOp
  | removeOp (key : String) : StorageOp

/-- The effect of one `localStorage` operation on the persisted storage:
a get leaves it untouched, a set writes, a remove deletes. -/
def applyOp (stor : Storage) : StorageOp → Storage
  | StorageOp.getOp _ => stor
  | StorageOp.setOp k v => setItem stor k v
  | StorageOp.removeOp k => removeItem stor k

/-- The `localStorage` operations the rehydration `useEffect` of
`AuthProvider` performs, in order: it only reads the two keys. -/
def rehydrateOps : List StorageOp :=
  [StorageOp.getOp accessTokenKey, StorageOp.getOp usernameKey]

end RumiAnalytica

namespace RumiAnalytica

/-- C10: rehydration only reads from persisted storage, so the storage after
initialization is identical to the storage before it, for every initial
content; and when the two fields are not both present the in-memory state is
left as it started (logged out). -/
theorem rehydration_reads_only (stor : Storage) (st : AuthState) :
    rehydrateOps.foldl applyOp stor = stor ∧
    ((truthy (getItem stor accessTokenKey) && truthy (getItem stor usernameKey)) = false →
      rehydrate stor st = st) := by
  constructor
  · rfl
  · intro h
    simp [rehydrate, h]

/-- Witness for C10: a storage holding only the token field is unchanged by
rehydration and leaves the provider logged out. -/
theorem rehydration_reads_only_witness :
    rehydrateOps.foldl applyOp (tokenOnlyStorage "tok") = tokenOnlyStorage "tok" ∧
    (truthy (getItem (tokenOnlyStorage "tok") accessTokenKey) &&
      truthy (getItem (tokenOnlyStorage "tok") usernameKey)) = false ∧
    rehydrate (tokenOnlyStorage "tok") initialAuthState = initialAuthState :=
  ⟨(rehydration_reads_only (tokenOnlyStorage "tok") initialAuthState).1,
    by decide,
    (rehydration_reads_only (tokenOnlyStorage "tok") initialAuthState).2 (by decide)⟩

end RumiAnalytica
